import Mathlib

/-!
Shallow embedding of the recommendation engine of the `tmdb_movies_recommond`
repository, together with theorems checking the natural-language specification
against it.  Numeric values that Python stores in floats are modelled as
rationals (`ℚ`); database rows, cursors and the surrounding I/O are modelled
as explicit inputs; fallible steps are modelled with `Option` or with explicit
boolean failure flags.
-/

namespace Tasks

/-! ## Popularity engine (`src/tasks.py`)

`update_movie_popularity_realtime` reads the movie row `(popularity,
updated_at)` under a non-blocking row lock, computes a time-decay factor and a
per-action increment, and writes back `popularity + increment`.  We model the
row as an `Option (Option ℚ × Option ℕ)`: `none` when the movie does not
exist, otherwise the stored popularity (`none` for SQL NULL) and the number of
days since `updated_at` (`none` for NULL `updated_at`).  Lock contention is an
explicit flag. -/

/-- Environment of one `update_movie_popularity_realtime` call: whether the
`FOR UPDATE NOWAIT` lock acquisition fails, and the fetched movie row. -/
structure RtEnv where
  lockFails : Bool
  movieRow : Option (Option ℚ × Option ℕ)

/-- Per-action base increment, from the `action_increments` dict in
`update_movie_popularity_realtime` (default `0.05` for unknown actions). -/
def actionIncrement (actionType : String) : ℚ :=
  if actionType = "view" then 1/20
  else if actionType = "search" then 2/25
  else if actionType = "rate" then 3/20
  else if actionType = "comment" then 1/5
  else if actionType = "like" then 1/10
  else 1/20

/-- Time-decay factor: `1 - (min(30, days_since_update)/30) * 0.2`, and `1.0`
when `updated_at` is NULL. -/
def timeDecay (daysSinceUpdate : Option ℕ) : ℚ :=
  match daysSinceUpdate with
  | none => 1
  | some d => 1 - ((min 30 d : ℕ) : ℚ) / 30 * (1/5)

/-- Result of `update_movie_popularity_realtime`: `none` on failure (lock
contention or missing movie; the row is left unchanged), otherwise the new
popularity written back. -/
def updateMoviePopularityRealtime (env : RtEnv) (actionType : String)
    (actionWeight : ℚ) : Option ℚ :=
  if env.lockFails then none
  else
    match env.movieRow with
    | none => none
    | some (pop, updatedAt) =>
        let currentPopularity : ℚ := pop.getD 0
        let increment := actionIncrement actionType * actionWeight * timeDecay updatedAt
        some (currentPopularity + increment)

/-- The popularity stored after the call: the written value on success, the
prior value (as read by the code, NULL ↦ 0) otherwise. -/
def popularityAfterRealtime (env : RtEnv) (actionType : String)
    (actionWeight : ℚ) : ℚ :=
  match updateMoviePopularityRealtime env actionType actionWeight with
  | some newPop => newPop
  | none =>
      match env.movieRow with
      | none => 0
      | some (pop, _) => pop.getD 0

/-- The popularity the code reads from the row (NULL ↦ 0). -/
def popularityBefore (env : RtEnv) : ℚ :=
  match env.movieRow with
  | none => 0
  | some (pop, _) => pop.getD 0

/-! `update_movie_popularity` (batch recompute).  For one movie the inputs are
the stored popularity, the days since `updated_at` (`none` when NULL), and the
trailing-30-day aggregates. -/

/-- Trailing-30-day aggregates for one movie, as selected by the batch query
(`COALESCE(..., 0)` makes them total). -/
structure BatchRow where
  basePopularity : ℚ
  daysSinceUpdate : Option ℕ
  recentRatingCount : ℕ
  recentAvgRating : ℚ
  recentWatchCount : ℕ
  recentCommentCount : ℕ
  recentLikeCount : ℕ

/-- The inactivity-penalty test of `update_movie_popularity`: more than 90
days since the last update and all four recent interaction counters zero
(only evaluated when `apply_penalty` and `last_updated` is not NULL). -/
def penaltyCond (applyPenalty : Bool) (row : BatchRow) : Bool :=
  applyPenalty &&
    (match row.daysSinceUpdate with
     | none => false
     | some d =>
         decide (90 < d) && decide (row.recentRatingCount = 0) &&
         decide (row.recentWatchCount = 0) &&
         decide (row.recentCommentCount = 0) &&
         decide (row.recentLikeCount = 0))

/-- Penalty factor `max(0.7, 1.0 - min(0.3, extra_months * 0.05))` where
`extra_months = (days_since_update - 90) / 30` (true division). -/
def penaltyFactor (d : ℕ) : ℚ :=
  max (7/10) (1 - min (3/10) (((d : ℚ) - 90) / 30 * (1/20)))

/-- New popularity computed for one movie by the batch recompute
`update_movie_popularity`. -/
def batchNewPopularity (applyPenalty : Bool) (row : BatchRow) : ℚ :=
  let normalizedRating : ℚ :=
    if 0 < row.recentAvgRating then row.recentAvgRating / 10 else 0
  if penaltyCond applyPenalty row = true then
    match row.daysSinceUpdate with
    | some d => row.basePopularity * penaltyFactor d
    | none => row.basePopularity
  else
    let blended : ℚ :=
      row.basePopularity * (3/10) +
      (row.recentRatingCount : ℚ) * (1/4) +
      normalizedRating * (row.recentRatingCount : ℚ) * (1/5) +
      (row.recentWatchCount : ℚ) * (3/20) +
      (row.recentCommentCount : ℚ) * (1/20) +
      (row.recentLikeCount : ℚ) * (1/20)
    max blended (row.basePopularity * (7/10))

end Tasks

namespace UserPreferences

/-! ## Genre preferences (`src/user_preferences.py`)

`update_user_genre_preferences` computes a raw score per genre (average
rating times `1 + 0.3*log(1+count)`), then normalizes all scores to `[0,10]`
and clamps each to `[0.5, 10]` before inserting.  The raw scores involve
`math.log`, so we model the insertion stage (lines 111-136) as a function of
the already-computed raw score map `preferences`, quantifying over arbitrary
rational raw scores (which covers every value the upstream computation can
produce). -/

/-- Lines 111-136 of `update_user_genre_preferences`: normalization constants
over `all_scores` (Python `min(...) if all_scores else 0`, `max(...) if
all_scores else 10`, division-by-zero guard) and the per-genre clamped score
written to `user_genre_preferences`. -/
def rebuildWrittenScores (prefs : List (String × ℚ)) : List (String × ℚ) :=
  let allScores := prefs.map (fun p => p.2)
  let minScore : ℚ := match allScores with | [] => 0 | x :: xs => xs.foldl min x
  let maxScore : ℚ := match allScores with | [] => 10 | x :: xs => xs.foldl max x
  let range0 := maxScore - minScore
  let scoreRange := if range0 = 0 then 1 else range0
  prefs.map (fun p =>
    (p.1, max (1/2) (min 10 ((p.2 - minScore) / scoreRange * 10))))

/-- Lines 332-359 of `update_user_genre_preferences_single_movie` for one
genre: blend `old*0.8 + rating*0.2` then clamp when a row exists, otherwise
insert the raw rating. -/
def singleMovieWrittenScore (existing : Option ℚ) (ratingValue : ℚ) : ℚ :=
  match existing with
  | some currentScore =>
      max (1/2) (min 10 (currentScore * (4/5) + ratingValue * (1/5)))
  | none => ratingValue

end UserPreferences

namespace ContentBased

/-! ## Content-based user profile (`src/recommender.py`, `_build_user_profile`)

The profile is accumulated over the user's rating rows: for each rated movie
present in `movie_to_idx`, the movie's TF-IDF feature vector is added with
weight `(rating - 1) / 9`; the accumulated vector is divided by the weight
sum when that sum is positive.  Feature vectors are modelled as functions
`ℕ → ℚ` (coordinate-indexed), the ratings dataframe as a list of
`(movie_id, rating)` rows. -/

/-- Per-movie weight `(rating['rating'] - 1) / 9`. -/
def ratingWeight (r : ℚ) : ℚ := (r - 1) / 9

def vecZero : ℕ → ℚ := fun _ => 0

def vecAdd (v w : ℕ → ℚ) : ℕ → ℚ := fun i => v i + w i

def vecSmul (c : ℚ) (v : ℕ → ℚ) : ℕ → ℚ := fun i => c * v i

/-- One iteration of the accumulation loop of `_build_user_profile`: a rated
movie found in `movie_to_idx` contributes `weight * feature_vector` to the
profile and `weight` to the weight sum; others are skipped. -/
def profileStep (movieToIdx : ℤ → Option ℕ) (features : ℕ → ℕ → ℚ)
    (st : (ℕ → ℚ) × ℚ) (p : ℤ × ℚ) : (ℕ → ℚ) × ℚ :=
  match movieToIdx p.1 with
  | some idx =>
      (vecAdd st.1 (vecSmul (ratingWeight p.2) (features idx)),
       st.2 + ratingWeight p.2)
  | none => st

/-- The accumulation loop of `_build_user_profile`: running
`(user_profile, weight_sum)` over the rating rows. -/
def profileFold (movieToIdx : ℤ → Option ℕ) (features : ℕ → ℕ → ℚ)
    (ratings : List (ℤ × ℚ)) : (ℕ → ℚ) × ℚ :=
  ratings.foldl (profileStep movieToIdx features) (vecZero, 0)

/-- `_build_user_profile`: accumulate, then normalize by the weight sum when
it is positive. -/
def buildUserProfile (movieToIdx : ℤ → Option ℕ) (features : ℕ → ℕ → ℚ)
    (ratings : List (ℤ × ℚ)) : ℕ → ℚ :=
  let st := profileFold movieToIdx features ratings
  if 0 < st.2 then fun i => st.1 i / st.2 else st.1

/-- The rating rows that contribute to the profile: those whose movie id is
in `movie_to_idx`, paired with their matrix row index. -/
def matchedRows (movieToIdx : ℤ → Option ℕ) (ratings : List (ℤ × ℚ)) :
    List (ℚ × ℕ) :=
  ratings.filterMap (fun p => (movieToIdx p.1).map (fun idx => (p.2, idx)))

end ContentBased

namespace Py

/-- ASCII whitespace as recognised by Python's `str.strip`. -/
def isSpaceChar (ch : Char) : Bool :=
  ch = ' ' || ch = '\t' || ch = '\n' || ch = '\r' ||
  ch = Char.ofNat 11 || ch = Char.ofNat 12

/-- Python `str.strip()`, written structurally over the character list so
that concrete instances evaluate inside the kernel. -/
def strip (s : String) : String :=
  ⟨((s.data.dropWhile isSpaceChar).reverse.dropWhile isSpaceChar).reverse⟩

/-- Python `str.lower()` (ASCII case mapping). -/
def lower (s : String) : String :=
  ⟨s.data.map Char.toLower⟩

end Py

namespace Similarity

/-! ## Similarity reasoning (`src/similarity_calculators.py`)

The calculators receive two movie dicts; the keys each calculator reads are
modelled as structure fields (absent keys default to the same values Python's
`.get(..., default)` supplies).  Id→name dicts are association lists; Python
`str.strip`/`str.lower` are `Py.strip`/`Py.lower`.  The
human-readable `reason` strings are derived verbatim from the evidence fields
and are not modelled separately. -/

/-- The movie dict fields read by the similarity calculators. -/
structure MovieDict where
  director_ids : List String := []
  directors_with_ids : List (String × String) := []
  actor_ids : List String := []
  actors_with_ids : List (String × String) := []
  genres : List String := []
  release_year : Option ℤ := none
  score : ℚ := 0
deriving DecidableEq

/-- A similarity result dict: its `type` and the supporting evidence. -/
structure SimilarityReason where
  type : String
  common_ids : List String := []
  common_names : List String := []
  common_genres : List String := []
  year_diff : Option ℕ := none
  score : ℚ := 0
deriving DecidableEq

/-- Python dict key lookup on an association list. -/
def alookup (l : List (String × String)) (k : String) : Option String :=
  match l with
  | [] => none
  | (k', v) :: rest => if k' = k then some v else alookup rest k

/-- Python dict key list. -/
def keys (l : List (String × String)) : List String := l.map Prod.fst

/-- The id-cleaning loop `for d_id in raw: if d_id and d_id.strip():
ids.add(d_id.strip())`. -/
def cleanIds (l : List String) : List String :=
  (l.filter (fun s => Py.strip s ≠ "")).map Py.strip

/-- `DirectorSimilarityCalculator.calculate_similarity`: ID intersection with
a name-based fallback, returning a `director` reason only when a non-blank
common director name exists. -/
def directorSimilarity (target candidate : MovieDict) : Option SimilarityReason :=
  let targetIds := cleanIds target.director_ids
  if (targetIds.isEmpty && target.directors_with_ids.isEmpty) ||
      candidate.directors_with_ids.isEmpty then
    none
  else
    let commonIds0 := targetIds.filter
      (fun i => (keys candidate.directors_with_ids).contains i)
    let commonIds :=
      if commonIds0.isEmpty && !target.directors_with_ids.isEmpty &&
          !candidate.director_ids.isEmpty then
        let targetNames := (target.directors_with_ids.map Prod.snd).filterMap
          (fun n => if n ≠ "" then some (Py.lower n) else none)
        let nameMatched := candidate.director_ids.filter (fun d =>
          match alookup candidate.directors_with_ids d with
          | some name => name ≠ "" && targetNames.contains (Py.lower name)
          | none => false)
        if nameMatched.isEmpty then commonIds0 else nameMatched
      else commonIds0
    if commonIds.isEmpty then none
    else
      let commonNames := commonIds.filterMap (fun i =>
        match alookup candidate.directors_with_ids i with
        | some name => if Py.strip name ≠ "" then some (Py.strip name) else none
        | none => none)
      if commonNames.isEmpty then none
      else some { type := "director", common_ids := commonIds,
                  common_names := commonNames }

/-- `ActorSimilarityCalculator.calculate_similarity`. -/
def actorSimilarity (target candidate : MovieDict) : Option SimilarityReason :=
  let targetIds := cleanIds target.actor_ids
  if targetIds.isEmpty || candidate.actors_with_ids.isEmpty then none
  else
    let commonIds := targetIds.filter
      (fun i => (keys candidate.actors_with_ids).contains i)
    if commonIds.isEmpty then none
    else
      let commonNames := commonIds.filterMap (fun i =>
        match alookup candidate.actors_with_ids i with
        | some name => if Py.strip name ≠ "" then some (Py.strip name) else none
        | none => none)
      if commonNames.isEmpty then none
      else some { type := "actors", common_ids := commonIds,
                  common_names := commonNames }

/-- `GenreSimilarityCalculator.calculate_similarity`. -/
def genreSimilarity (target candidate : MovieDict) : Option SimilarityReason :=
  if target.genres.isEmpty || candidate.genres.isEmpty then none
  else
    let commonGenres := target.genres.filter
      (fun g => candidate.genres.contains g)
    if commonGenres.isEmpty then none
    else some { type := "genres", common_genres := commonGenres }

/-- `YearSimilarityCalculator.calculate_similarity` (`max_year_diff = 2`;
Python treats year `0`/`None` as missing). -/
def yearSimilarity (target candidate : MovieDict) : Option SimilarityReason :=
  match target.release_year, candidate.release_year with
  | some ty, some cy =>
      if ty = 0 || cy = 0 then none
      else
        let diff := (ty - cy).natAbs
        if diff ≤ 2 then some { type := "year", year_diff := some diff }
        else none
  | _, _ => none

/-- `RatingSimilarityCalculator.calculate_similarity`: always returns a
(non-empty, hence truthy) result. -/
def ratingSimilarity (_target candidate : MovieDict) : SimilarityReason :=
  { type := "rating", score := candidate.score }

/-- The fallback result of the factory when every calculator returns a falsy
value. -/
def defaultReason : SimilarityReason := { type := "default" }

/-- The factory loop: first truthy result in priority order, else the
default. -/
def firstReason : List (Option SimilarityReason) → SimilarityReason
  | [] => defaultReason
  | some r :: _ => r
  | none :: rest => firstReason rest

/-- `SimilarityCalculatorFactory.get_best_similarity_reason`: the calculators
sorted by priority (director=1, actors=2, genres=3, year=4, rating=999). -/
def getBestSimilarityReason (target candidate : MovieDict) : SimilarityReason :=
  firstReason
    [directorSimilarity target candidate,
     actorSimilarity target candidate,
     genreSimilarity target candidate,
     yearSimilarity target candidate,
     some (ratingSimilarity target candidate)]

end Similarity

namespace Knowledge

/-! ## Knowledge-based cold start (`src/knowledge_recommender.py`)

`get_knowledge_recommendations_for_user` builds one `genres LIKE %s`
condition per entry of `get_user_top_genres(user_id)` and passes
`f"%{genre}%"` as the parameter.  `get_user_top_genres` returns a list of
`(genre_name, score)` **tuples** (`user_preferences.py` line 249), so the
interpolated `genre` is a tuple and `f"%{genre}%"` is `"%" + str(tuple) +
"%"`.  `str` of such a tuple renders as `('<name>', <float-repr>)`; the
float's repr is supplied here as a string (e.g. `"9.0"`). -/

/-- Python `repr` of a plain string (no embedded quotes/backslashes): the
text wrapped in single quotes. -/
def pyQuote (s : String) : String := "\x27" ++ s ++ "\x27"

/-- Python `str` of a 2-tuple `(name, score)` whose score renders as
`scoreRepr`. -/
def pyTupleStr (genreName scoreRepr : String) : String :=
  "(" ++ pyQuote genreName ++ ", " ++ scoreRepr ++ ")"

/-- The pattern-building loop (lines 46-50): for each element `genre` of
`top_genres` append `f"%{genre}%"`. -/
def buildGenreLikePatterns (topGenres : List (String × String)) : List String :=
  topGenres.map (fun g => "%" ++ pyTupleStr g.1 g.2 ++ "%")

/-- The pattern the claim describes: `'%' + genre_name + '%'` built from the
genre's name. -/
def intendedPattern (genreName : String) : String := "%" ++ genreName ++ "%"

/-- Fuel-indexed SQL `LIKE` matcher (`%` matches any sequence, `_` any single
character); standard semantics of the external database evaluating the
generated `genres LIKE %s` condition. -/
def likeMatchFuel : ℕ → List Char → List Char → Bool
  | 0, _, _ => false
  | _ + 1, [], s => s.isEmpty
  | fuel + 1, p :: ps, s =>
      if p = '%' then
        likeMatchFuel fuel ps s ||
          (match s with
           | [] => false
           | _ :: srest => likeMatchFuel fuel (p :: ps) srest)
      else
        match s with
        | [] => false
        | c :: srest => (p = '_' || p = c) && likeMatchFuel fuel ps srest

/-- SQL `LIKE`: pattern against a string, with enough fuel (each recursive
step consumes at least one character of the pattern or the text). -/
def sqlLike (pattern s : String) : Bool :=
  likeMatchFuel (pattern.length + s.length + 1) pattern.data s.data

end Knowledge

namespace Hybrid

/-! ## Hybrid fusion and diversity optimization (`src/recommender.py`)

`get_hybrid_recommendations` asks the three engines for candidates, fuses
them into `movie_scores` (a dict keyed by movie id, insertion-ordered) with
weights 0.4/0.3/0.3, removes the user's rated movies, and hands the result to
`_apply_diversity_optimization`.  Engine outputs are inputs here, each a list
of `(movie_id, score)` pairs (the user-CF dicts contribute exactly their
`movie_id`/`score` fields).  The score dict is an insertion-ordered
association list, as in CPython. -/

/-- `movie_scores[movie_id] = movie_scores.get(movie_id, 0) + v` on an
insertion-ordered dict. -/
def addScore (m : List (ℤ × ℚ)) (k : ℤ) (v : ℚ) : List (ℤ × ℚ) :=
  match m with
  | [] => [(k, v)]
  | (k', v') :: rest =>
      if k' = k then (k', v' + v) :: rest else (k', v') :: addScore rest k v

/-- `movie_scores.get(k, 0)`. -/
def scoreLookup (m : List (ℤ × ℚ)) (k : ℤ) : ℚ :=
  match m with
  | [] => 0
  | (k', v') :: rest => if k' = k then v' else scoreLookup rest k

/-- One engine's fusion loop: `movie_scores[id] += score * weight` over the
engine's recommendation list. -/
def mergeEngine (acc : List (ℤ × ℚ)) (recs : List (ℤ × ℚ)) (w : ℚ) :
    List (ℤ × ℚ) :=
  recs.foldl (fun a p => addScore a p.1 (p.2 * w)) acc

/-- The three fusion loops of `get_hybrid_recommendations` (weights user-CF
0.4, item-CF 0.3, content 0.3). -/
def fuseScores (userCf itemCf content : List (ℤ × ℚ)) : List (ℤ × ℚ) :=
  mergeEngine (mergeEngine (mergeEngine [] userCf (2/5)) itemCf (3/10))
    content (3/10)

/-- The score an engine proposed for a movie, `0` when it did not propose
it. -/
def engineScore (recs : List (ℤ × ℚ)) (k : ℤ) : ℚ :=
  match recs.find? (fun p => p.1 = k) with
  | some p => p.2
  | none => 0

/-- The fused map after removing the user's rated movies (lines 1200-1210). -/
def hybridMovieScores (userCf itemCf content : List (ℤ × ℚ))
    (rated : List ℤ) : List (ℤ × ℚ) :=
  (fuseScores userCf itemCf content).filter (fun p => decide (p.1 ∉ rated))

/-! `_apply_diversity_optimization`.  The movie-detail dict built from
`get_movie_details` is modelled as a total function `ℤ → MovieInfo` (ids
missing from the fetched list carry the empty info `{}`, matching
`movie_details.get(movie_id, {})`; `get_movie_details` catches its own
errors and returns a list, so the optimizer's `except` fallback has no
in-repo trigger and the `try` body is what we embed). -/

/-- The detail fields the optimizer reads (`directors`, `actors`, `genres`,
already list-valued as produced by `get_movie_details`). -/
structure MovieInfo where
  directors : List String := []
  actors : List String := []
  genres : List String := []
deriving DecidableEq

/-- The director keys counted by the walk: truthy (non-empty) names, used
unstripped. -/
def dirKeys (m : MovieInfo) : List String := m.directors.filter (fun d => d ≠ "")

/-- The actor keys: truthy raw entries, stripped before counting. -/
def actorKeys (m : MovieInfo) : List String :=
  (m.actors.filter (fun a => a ≠ "")).map Py.strip

/-- The genre keys: truthy raw entries, stripped before counting. -/
def genreKeys (m : MovieInfo) : List String :=
  (m.genres.filter (fun g => g ≠ "")).map Py.strip

/-- `count.get(key, 0) >= LIMIT` for some key of the candidate. -/
def divExceeded (cnt : String → ℕ) (limit : ℕ) (ks : List String) : Bool :=
  ks.any (fun k => decide (limit ≤ cnt k))

/-- A candidate passes when none of its directors has 2 selections, none of
its actors 3, and none of its genres 4 (`MAX_SAME_DIRECTOR = 2`,
`MAX_SAME_ACTOR = 3`, `MAX_SAME_GENRE = 4`). -/
def divAccept (details : ℤ → MovieInfo) (dc ac gc : String → ℕ) (mid : ℤ) :
    Bool :=
  !divExceeded dc 2 (dirKeys (details mid)) &&
  !divExceeded ac 3 (actorKeys (details mid)) &&
  !divExceeded gc 4 (genreKeys (details mid))

/-- The counter updates after accepting a candidate. -/
def bumpCounts (cnt : String → ℕ) (ks : List String) : String → ℕ :=
  ks.foldl (fun c k => fun x => if x = k then c k + 1 else c x) cnt

/-- The walk over the score-sorted candidates: stop at `n` accepted, skip a
candidate that exceeds a counter, otherwise bump the counters and append. -/
def divWalk (details : ℤ → MovieInfo) (n : ℕ) :
    List (ℤ × ℚ) → (String → ℕ) → (String → ℕ) → (String → ℕ) →
    List (ℤ × ℚ) → List (ℤ × ℚ)
  | [], _, _, _, acc => acc
  | (mid, s) :: rest, dc, ac, gc, acc =>
      if n ≤ acc.length then acc
      else if divAccept details dc ac gc mid then
        divWalk details n rest
          (bumpCounts dc (dirKeys (details mid)))
          (bumpCounts ac (actorKeys (details mid)))
          (bumpCounts gc (genreKeys (details mid)))
          (acc ++ [(mid, s)])
      else divWalk details n rest dc ac gc acc

/-- `sorted(movie_scores.items(), key=lambda x: x[1], reverse=True)`. -/
def sortCandidates (scores : List (ℤ × ℚ)) : List (ℤ × ℚ) :=
  scores.mergeSort (fun a b => decide (b.2 ≤ a.2))

/-- `_apply_diversity_optimization` (its `try` body). -/
def applyDiversityOptimization (details : ℤ → MovieInfo)
    (scores : List (ℤ × ℚ)) (n : ℕ) : List (ℤ × ℚ) :=
  divWalk details n (sortCandidates scores)
    (fun _ => 0) (fun _ => 0) (fun _ => 0) []

/-- `get_hybrid_recommendations`: fuse, drop rated movies, apply the
diversity optimizer. -/
def getHybridRecommendations (details : ℤ → MovieInfo)
    (userCf itemCf content : List (ℤ × ℚ)) (rated : List ℤ) (n : ℕ) :
    List (ℤ × ℚ) :=
  applyDiversityOptimization details
    (hybridMovieScores userCf itemCf content rated) n

/-- How many returned entries carry a given key (e.g. how many entries'
director lists contain a given director). -/
def entryCount (details : ℤ → MovieInfo) (keyFn : MovieInfo → List String)
    (k : String) (l : List (ℤ × ℚ)) : ℕ :=
  (l.filter (fun p => decide (k ∈ keyFn (details p.1)))).length

end Hybrid

namespace RecUser

/-! ## Top-level entry point `get_recommendations_for_user`
(`src/recommender.py` lines 1339-1542)

The database and the global recommender are modelled as an environment: the
admin check, the cached-recommendation rows, the rated-movie rows, the id
traversal order used by `fetch_random_rows_by_id_range` (the random pivot
only permutes which ids come first; every id still passes the query's WHERE
clause, including its `id NOT IN (...)` condition), and explicit flags for
each `except` path.  `cacheQueryFails` stands for any exception escaping the
outer cache `try` (lines 1441-1494), which line 1495 catches. -/

structure RecEnv where
  isAdmin : Bool
  adminFetchFails : Bool
  recommenderFails : Bool
  recommenderRecs : List ℤ
  fallbackFails : Bool
  cacheQueryFails : Bool
  cacheCount : ℕ
  cachedRecs : List ℤ
  ratedMovieIds : List ℤ
  padFails : Bool
  movieOrder : List ℤ
  votePopular : ℤ → Bool
  outerFails : Bool

/-- `_fetch_random_movie_ids` /
`fetch_random_rows_by_id_range`: ids in traversal order satisfying the
exclusion (`id NOT IN (...)`) and any extra WHERE condition, up to `limit`. -/
def fetchRandomMovieIds (movieOrder : List ℤ) (limit : ℕ)
    (excludeIds : List ℤ) (extra : ℤ → Bool) : List ℤ :=
  if limit = 0 then []
  else (movieOrder.filter
    (fun i => decide (i ∉ excludeIds) && extra i)).take limit

/-- The id-extraction plus exclusion filter applied to the global
recommender's output (lines 1407-1420 and 1473-1485): the filter runs only
when both `exclude_ids` and `movie_ids` are non-empty. -/
def filterRecommenderOutput (raw : List ℤ) (excludeIds : List ℤ) : List ℤ :=
  if excludeIds ≠ [] ∧ raw ≠ [] then
    raw.filter (fun i => decide (i ∉ excludeIds))
  else raw

/-- The `movie_ids` value before the padding step. -/
def movieIdsBeforePadding (env : RecEnv) (n : ℕ) (refresh : Bool)
    (excludeIds : List ℤ) : List ℤ :=
  if refresh then
    if env.recommenderFails then
      if env.fallbackFails then []
      else (fetchRandomMovieIds env.movieOrder (n + excludeIds.length) []
        env.votePopular).filter (fun i => decide (i ∉ excludeIds))
    else filterRecommenderOutput env.recommenderRecs excludeIds
  else
    if env.cacheQueryFails then
      if env.fallbackFails then []
      else fetchRandomMovieIds env.movieOrder n [] (fun _ => true)
    else if 0 < env.cacheCount then
      (env.cachedRecs.take (n + excludeIds.length)).filter
        (fun i => decide (i ∉ excludeIds))
    else
      if env.recommenderFails then
        (fetchRandomMovieIds env.movieOrder (n + excludeIds.length) []
          (fun _ => true)).filter (fun i => decide (i ∉ excludeIds))
      else filterRecommenderOutput env.recommenderRecs excludeIds

/-- `get_recommendations_for_user(user_id, n, refresh, exclude_ids)` (the
per-user data lives in `env`). -/
def getRecommendationsForUser (env : RecEnv) (n : ℕ) (refresh : Bool)
    (excludeIds : List ℤ) : List ℤ :=
  if env.outerFails then []
  else if env.isAdmin then
    if env.adminFetchFails then []
    else fetchRandomMovieIds env.movieOrder n excludeIds (fun _ => true)
  else
    let movieIds := movieIdsBeforePadding env n refresh excludeIds
    let padded :=
      if movieIds.length < n then
        if env.padFails then movieIds
        else
          movieIds ++ fetchRandomMovieIds env.movieOrder
            (n - movieIds.length)
            ((movieIds ++ excludeIds) ++ env.ratedMovieIds) (fun _ => true)
      else movieIds
    padded.take n

end RecUser

namespace Similar

/-! ## `get_similar_movies` (`src/recommender.py` lines 1544-1912)

The target movie id is appended to the exclusion list (line 1655) and the
candidate query carries `m.id NOT IN (exclude_ids)` (line 1700), so every
candidate row has an id outside the final exclusion list.  The rest of the
WHERE clause (genre LIKE / director / year window) is the predicate
`whereCond`; the per-candidate similarity-reason computation only assigns
each candidate its reason type (`reasonOf`); `random.shuffle` is an
arbitrary permutation, modelled as a reordering function.  The post-query
stage groups candidates by reason type, shuffles each group, allocates
slots per type (director ≤ 2, actors `rem/3 + 1`, others `rem/4 + 1`, each
at least 1 and at most the remaining slots), then pads from the unchosen
candidates and truncates to `n`. -/

/-- A processed candidate: its movie id and its similarity-reason type. -/
structure Cand where
  id : ℤ
  reasonType : String
deriving DecidableEq

/-- `take_count` for one reason-type group (lines 1878-1889). -/
def takeCountFor (t : String) (len rem : ℕ) : ℕ :=
  let tc0 :=
    if t = "director" then min 2 (min len rem)
    else if t = "actors" then min (rem / 3 + 1) len
    else min (rem / 4 + 1) len
  min (max 1 tc0) rem

/-- The reason types in `priority_order` order (all six values the pipeline
can assign). -/
def allReasonTypes : List String :=
  ["director", "actors", "genres", "year", "rating", "default"]

/-- The per-type selection loop (lines 1875-1897): process the non-empty
groups in priority order, take `take_count` from each shuffled group, stop
when the remaining slots hit zero. -/
def selectByTypes (sh : String → List Cand → List Cand)
    (resultMovies : List Cand) : List String → ℕ → List Cand
  | [], _ => []
  | t :: ts, rem =>
      let group := resultMovies.filter (fun m => m.reasonType = t)
      if group.isEmpty then selectByTypes sh resultMovies ts rem
      else
        let tc := takeCountFor t group.length rem
        let taken := (sh t group).take tc
        let rem' := rem - tc
        if rem' = 0 then taken
        else taken ++ selectByTypes sh resultMovies ts rem'

/-- The final assembly (lines 1871-1906): per-type selection, then padding
from the not-yet-chosen candidates, then truncation to `n`. -/
def selectSimilarMovies (sh : String → List Cand → List Cand)
    (shPad : List Cand → List Cand) (resultMovies : List Cand) (n : ℕ) :
    List Cand :=
  let final0 := selectByTypes sh resultMovies allReasonTypes n
  let rem := n - final0.length
  let final :=
    if 0 < rem then
      final0 ++
        (shPad (resultMovies.filter (fun m => decide (m ∉ final0)))).take rem
    else final0
  final.take n

/-- `get_similar_movies`: `fails` covers the early returns (target movie
missing, any exception → `[]`); otherwise the candidate query excludes
`exclude_ids ++ [movie_id]`, takes `n * 3` rows, assigns reasons and runs
the selection. -/
def getSimilarMovies (db : List ℤ) (whereCond : ℤ → Bool)
    (reasonOf : ℤ → String) (sh : String → List Cand → List Cand)
    (shPad : List Cand → List Cand) (fails : Bool) (movieId : ℤ) (n : ℕ)
    (excludeIds : List ℤ) : List Cand :=
  if fails then []
  else
    let excludeAll := excludeIds ++ [movieId]
    let raws := (db.filter
      (fun i => decide (i ∉ excludeAll) && whereCond i)).take (n * 3)
    let resultMovies := raws.map (fun i => ⟨i, reasonOf i⟩)
    selectSimilarMovies sh shPad resultMovies n

end Similar

/-! ## Theorems -/

lemma Tasks.actionIncrement_pos (a : String) : 0 < Tasks.actionIncrement a := by
  unfold Tasks.actionIncrement
  repeat' split
  all_goals norm_num

lemma Tasks.timeDecay_bounds (days : Option ℕ) :
    4/5 ≤ Tasks.timeDecay days ∧ Tasks.timeDecay days ≤ 1 := by
  unfold Tasks.timeDecay
  match days with
  | none => norm_num
  | some d =>
      have h1 : (0 : ℚ) ≤ ((min 30 d : ℕ) : ℚ) := by positivity
      have h2 : ((min 30 d : ℕ) : ℚ) ≤ 30 := by
        exact_mod_cast Nat.min_le_left 30 d
      constructor <;> simp only [] <;> linarith

/-- C3: for `update_movie_popularity_realtime` with positive weight, the
time-decay factor lies in `[0.8, 1]`; on success the new popularity is the
old one plus `base_increment(action) * weight * time_decay`; and the stored
popularity never decreases (it is unchanged on lock contention, missing movie
or error). -/
theorem C3_realtime_popularity_update (env : Tasks.RtEnv) (actionType : String)
    (w : ℚ) (hw : 0 < w) :
    (∀ days, 4/5 ≤ Tasks.timeDecay days ∧ Tasks.timeDecay days ≤ 1) ∧
    (∀ pop updatedAt, env.lockFails = false → env.movieRow = some (pop, updatedAt) →
      Tasks.updateMoviePopularityRealtime env actionType w =
        some (pop.getD 0 +
          Tasks.actionIncrement actionType * w * Tasks.timeDecay updatedAt)) ∧
    Tasks.popularityBefore env ≤ Tasks.popularityAfterRealtime env actionType w := by
  refine ⟨Tasks.timeDecay_bounds, ?_, ?_⟩
  · intro pop updatedAt hlock hrow
    simp [Tasks.updateMoviePopularityRealtime, hlock, hrow]
  · rcases env with ⟨lockFails, movieRow⟩
    cases lockFails with
    | true =>
        simp [Tasks.popularityBefore, Tasks.popularityAfterRealtime,
          Tasks.updateMoviePopularityRealtime]
    | false =>
        cases movieRow with
        | none =>
            simp [Tasks.popularityBefore, Tasks.popularityAfterRealtime,
              Tasks.updateMoviePopularityRealtime]
        | some row =>
            rcases row with ⟨pop, updatedAt⟩
            have hinc : 0 ≤ Tasks.actionIncrement actionType * w *
                Tasks.timeDecay updatedAt := by
              have h1 := Tasks.actionIncrement_pos actionType
              have h2 := (Tasks.timeDecay_bounds updatedAt).1
              positivity
            show pop.getD 0 ≤ Tasks.popularityAfterRealtime _ _ _
            have hrun : Tasks.popularityAfterRealtime
                ⟨false, some (pop, updatedAt)⟩ actionType w =
                pop.getD 0 + Tasks.actionIncrement actionType * w *
                  Tasks.timeDecay updatedAt := by
              simp [Tasks.popularityAfterRealtime,
                Tasks.updateMoviePopularityRealtime]
            rw [hrun]
            linarith

/-- Witness for C3 at a concrete environment: movie present with popularity 2,
last updated 10 days ago, a `rate` action of weight 1. -/
theorem C3_realtime_popularity_update_witness :
    Tasks.popularityBefore ⟨false, some (some 2, some 10)⟩ ≤
      Tasks.popularityAfterRealtime ⟨false, some (some 2, some 10)⟩ "rate" 1 :=
  (C3_realtime_popularity_update ⟨false, some (some 2, some 10)⟩ "rate" 1
    (by norm_num)).2.2

/-- C4 counterexample: a movie with stored popularity 0, last updated 120 days
ago and zero trailing-30-day activity is penalized, yet its recomputed
popularity equals (is not strictly less than) its pre-recompute value, against
the claim's unconditional strict decrease. -/
theorem C4_counterexample_zero_popularity :
    Tasks.penaltyCond true ⟨0, some 120, 0, 0, 0, 0, 0⟩ = true ∧
    ¬ Tasks.batchNewPopularity true ⟨0, some 120, 0, 0, 0, 0, 0⟩ <
        (0 : ℚ) := by
  constructor
  · rfl
  · simp [Tasks.batchNewPopularity, Tasks.penaltyCond, Tasks.penaltyFactor]

/-- C4 (amended): with `apply_penalty=True`, the inactivity penalty applies to
a movie iff its last update is more than 90 days old and all four
trailing-30-day interaction counts are zero; when applied the new popularity
is the old one times `max(0.7, 1 - min(0.3, ((days-90)/30)*0.05))`, strictly
less than the old value whenever the old popularity is positive (a movie at
popularity 0 keeps popularity 0); a movie with any trailing-30-day
interaction is never penalized, and its recomputed popularity is floored at
0.7 times its old value. -/
theorem C4_batch_inactivity_penalty (row : Tasks.BatchRow) :
    (Tasks.penaltyCond true row = true ↔
      ∃ d, row.daysSinceUpdate = some d ∧ 90 < d ∧
        row.recentRatingCount = 0 ∧ row.recentWatchCount = 0 ∧
        row.recentCommentCount = 0 ∧ row.recentLikeCount = 0) ∧
    (∀ d, row.daysSinceUpdate = some d → Tasks.penaltyCond true row = true →
      Tasks.batchNewPopularity true row =
        row.basePopularity * Tasks.penaltyFactor d ∧
      (0 < row.basePopularity →
        Tasks.batchNewPopularity true row < row.basePopularity)) ∧
    ((0 < row.recentRatingCount ∨ 0 < row.recentWatchCount ∨
      0 < row.recentCommentCount ∨ 0 < row.recentLikeCount) →
      Tasks.penaltyCond true row = false) ∧
    (Tasks.penaltyCond true row = false →
      row.basePopularity * (7/10) ≤ Tasks.batchNewPopularity true row) := by
  refine ⟨?_, ?_, ?_, ?_⟩
  · unfold Tasks.penaltyCond
    cases h : row.daysSinceUpdate with
    | none => simp [h]
    | some d =>
        simp only [Bool.true_and, Bool.and_eq_true, decide_eq_true_eq]
        constructor
        · rintro ⟨⟨⟨⟨h90, hr⟩, hw⟩, hc⟩, hl⟩
          exact ⟨d, rfl, h90, hr, hw, hc, hl⟩
        · rintro ⟨d', hd', h90, hr, hw, hc, hl⟩
          injection hd' with hdd
          subst hdd
          exact ⟨⟨⟨⟨h90, hr⟩, hw⟩, hc⟩, hl⟩
  · intro d hd hpen
    have hfac_lt : Tasks.penaltyFactor d < 1 := by
      unfold Tasks.penaltyFactor
      have h90 : 90 < d := by
        unfold Tasks.penaltyCond at hpen
        rw [hd] at hpen
        simp only [Bool.true_and, Bool.and_eq_true, decide_eq_true_eq] at hpen
        exact hpen.1.1.1.1
      have h1 : (1 : ℚ) ≤ (d : ℚ) - 90 := by
        have : (91 : ℚ) ≤ (d : ℚ) := by exact_mod_cast h90
        linarith
      have hpos : 0 < min (3/10 : ℚ) (((d : ℚ) - 90) / 30 * (1/20)) := by
        apply lt_min
        · norm_num
        · positivity
      apply max_lt
      · norm_num
      · linarith
    have heq : Tasks.batchNewPopularity true row =
        row.basePopularity * Tasks.penaltyFactor d := by
      unfold Tasks.batchNewPopularity
      rw [if_pos hpen, hd]
    refine ⟨heq, fun hbase => ?_⟩
    rw [heq]
    calc row.basePopularity * Tasks.penaltyFactor d
        < row.basePopularity * 1 := by
          apply mul_lt_mul_of_pos_left hfac_lt hbase
      _ = row.basePopularity := mul_one _
  · intro hact
    unfold Tasks.penaltyCond
    cases h : row.daysSinceUpdate with
    | none => simp
    | some d =>
        simp only [Bool.true_and, Bool.and_eq_true, decide_eq_true_eq,
          Bool.and_eq_false_iff, decide_eq_false_iff_not]
        rcases hact with hr | hw | hc | hl
        · left; left; left; right; omega
        · left; left; right; omega
        · left; right; omega
        · right; omega
  · intro hpen
    unfold Tasks.batchNewPopularity
    rw [if_neg (by simp [hpen])]
    simp only []
    exact le_max_right _ _

/-- Witness for C4 at a concrete batch row: popularity 10, last updated 120
days ago, no trailing-30-day activity: penalized, recomputed popularity
strictly below 10. -/
theorem C4_batch_inactivity_penalty_witness :
    Tasks.batchNewPopularity true ⟨10, some 120, 0, 0, 0, 0, 0⟩ <
      (⟨10, some 120, 0, 0, 0, 0, 0⟩ : Tasks.BatchRow).basePopularity :=
  ((C4_batch_inactivity_penalty ⟨10, some 120, 0, 0, 0, 0, 0⟩).2.1 120 rfl
    (by rfl)).2 (by norm_num)

lemma UserPreferences.clamp_mem (x : ℚ) :
    1/2 ≤ max (1/2) (min 10 x) ∧ max (1/2) (min 10 x) ≤ 10 :=
  ⟨le_max_left _ _, max_le (by norm_num) (min_le_left _ _)⟩

/-- C8: every preference score written to `user_genre_preferences` lies in
`[0.5, 10]`: the full rebuild normalizes then clamps every score, and the
incremental single-rating path clamps its blended update and inserts the raw
rating on the fresh-insert branch, which lies in range whenever the input
rating does. -/
theorem C8_preference_scores_clamped (prefs : List (String × ℚ))
    (existing : Option ℚ) (r : ℚ) (hr1 : 1/2 ≤ r) (hr2 : r ≤ 10) :
    (∀ p ∈ UserPreferences.rebuildWrittenScores prefs,
      1/2 ≤ p.2 ∧ p.2 ≤ 10) ∧
    (1/2 ≤ UserPreferences.singleMovieWrittenScore existing r ∧
      UserPreferences.singleMovieWrittenScore existing r ≤ 10) := by
  constructor
  · intro p hp
    unfold UserPreferences.rebuildWrittenScores at hp
    simp only [List.mem_map] at hp
    obtain ⟨q, _, rfl⟩ := hp
    exact UserPreferences.clamp_mem _
  · unfold UserPreferences.singleMovieWrittenScore
    cases existing with
    | some currentScore => exact UserPreferences.clamp_mem _
    | none => exact ⟨hr1, hr2⟩

/-- Witness for C8 at a concrete preference map and a concrete fresh-insert
rating. -/
theorem C8_preference_scores_clamped_witness :
    (∀ p ∈ UserPreferences.rebuildWrittenScores [("Action", 5), ("Drama", 7)],
      1/2 ≤ p.2 ∧ p.2 ≤ 10) ∧
    (1/2 ≤ UserPreferences.singleMovieWrittenScore none 3 ∧
      UserPreferences.singleMovieWrittenScore none 3 ≤ 10) :=
  C8_preference_scores_clamped [("Action", 5), ("Drama", 7)] none 3
    (by norm_num) (by norm_num)

/-- C9 counterexample: the data model admits the rating `0.5` (ratings run
0.5-10 in half-point steps), and its profile weight `(0.5 - 1)/9 = -1/18`
is negative, outside `[0, 1]`. -/
theorem C9_counterexample_half_point_rating :
    ContentBased.ratingWeight (1/2) = -(1/18) ∧
    ¬ (0 ≤ ContentBased.ratingWeight (1/2) ∧
        ContentBased.ratingWeight (1/2) ≤ 1) := by
  norm_num [ContentBased.ratingWeight]

lemma ContentBased.profileFold_go (movieToIdx : ℤ → Option ℕ)
    (features : ℕ → ℕ → ℚ) (ratings : List (ℤ × ℚ)) (init : (ℕ → ℚ) × ℚ) :
    (ratings.foldl (ContentBased.profileStep movieToIdx features) init).2 =
      init.2 + ((ContentBased.matchedRows movieToIdx ratings).map
        (fun q => ContentBased.ratingWeight q.1)).sum ∧
    ∀ i, (ratings.foldl (ContentBased.profileStep movieToIdx features) init).1 i =
      init.1 i + ((ContentBased.matchedRows movieToIdx ratings).map
        (fun q => ContentBased.ratingWeight q.1 * features q.2 i)).sum := by
  induction ratings generalizing init with
  | nil => simp [ContentBased.matchedRows]
  | cons p rest ih =>
      simp only [List.foldl_cons]
      have hmr : ContentBased.matchedRows movieToIdx (p :: rest) =
          ((movieToIdx p.1).map (fun idx => (p.2, idx))).toList ++
            ContentBased.matchedRows movieToIdx rest := by
        unfold ContentBased.matchedRows
        cases h : movieToIdx p.1 <;> simp [List.filterMap_cons, h]
      cases h : movieToIdx p.1 with
      | none =>
          have hstep : ContentBased.profileStep movieToIdx features init p =
              init := by
            unfold ContentBased.profileStep
            rw [h]
          rw [hstep, hmr, h]
          simpa using ih init
      | some idx =>
          have hstep : ContentBased.profileStep movieToIdx features init p =
              (ContentBased.vecAdd init.1
                 (ContentBased.vecSmul (ContentBased.ratingWeight p.2)
                   (features idx)),
               init.2 + ContentBased.ratingWeight p.2) := by
            unfold ContentBased.profileStep
            rw [h]
          rw [hstep, hmr, h]
          obtain ⟨ih1, ih2⟩ := ih (ContentBased.vecAdd init.1
            (ContentBased.vecSmul (ContentBased.ratingWeight p.2)
              (features idx)),
            init.2 + ContentBased.ratingWeight p.2)
          constructor
          · rw [ih1]
            simp
            ring
          · intro i
            rw [ih2 i]
            simp [ContentBased.vecAdd, ContentBased.vecSmul]
            ring

/-- C9 (amended): the user profile is the rating-weighted mean of the matched
movies' feature vectors with weight `(rating-1)/9`, and this weight lies in
`[0,1]` for every rating in `[1,10]`; the admitted rating `0.5` falls outside
that range and yields the negative weight `-1/18`. -/
theorem C9_profile_weighted_mean (movieToIdx : ℤ → Option ℕ)
    (features : ℕ → ℕ → ℚ) (ratings : List (ℤ × ℚ))
    (hw : 0 < (ContentBased.profileFold movieToIdx features ratings).2) :
    (∀ r : ℚ, 1 ≤ r → r ≤ 10 →
      0 ≤ ContentBased.ratingWeight r ∧ ContentBased.ratingWeight r ≤ 1) ∧
    (ContentBased.profileFold movieToIdx features ratings).2 =
      ((ContentBased.matchedRows movieToIdx ratings).map
        (fun q => ContentBased.ratingWeight q.1)).sum ∧
    ∀ i, ContentBased.buildUserProfile movieToIdx features ratings i =
      ((ContentBased.matchedRows movieToIdx ratings).map
        (fun q => ContentBased.ratingWeight q.1 * features q.2 i)).sum /
      ((ContentBased.matchedRows movieToIdx ratings).map
        (fun q => ContentBased.ratingWeight q.1)).sum := by
  obtain ⟨h2, h1⟩ := ContentBased.profileFold_go movieToIdx features ratings
    (ContentBased.vecZero, 0)
  have hsum : (ContentBased.profileFold movieToIdx features ratings).2 =
      ((ContentBased.matchedRows movieToIdx ratings).map
        (fun q => ContentBased.ratingWeight q.1)).sum := by
    unfold ContentBased.profileFold
    rw [h2]
    norm_num
  refine ⟨?_, hsum, ?_⟩
  · intro r hr1 hr2
    unfold ContentBased.ratingWeight
    constructor
    · apply div_nonneg <;> linarith
    · rw [div_le_one (by norm_num)]
      linarith
  · intro i
    unfold ContentBased.buildUserProfile
    rw [if_pos hw]
    have hprof : (ContentBased.profileFold movieToIdx features ratings).1 i =
        ((ContentBased.matchedRows movieToIdx ratings).map
          (fun q => ContentBased.ratingWeight q.1 * features q.2 i)).sum := by
      unfold ContentBased.profileFold
      rw [h1 i]
      simp [ContentBased.vecZero]
    rw [hprof, hsum]

/-- Witness for C9: one rated movie (rating 10) mapped to matrix row 0 with
all-ones feature vector; the weight sum is `1 > 0`. -/
theorem C9_profile_weighted_mean_witness :
    (∀ r : ℚ, 1 ≤ r → r ≤ 10 →
      0 ≤ ContentBased.ratingWeight r ∧ ContentBased.ratingWeight r ≤ 1) ∧
    (ContentBased.profileFold (fun _ => some 0) (fun _ _ => 1)
        [((1 : ℤ), (10 : ℚ))]).2 =
      ((ContentBased.matchedRows (fun _ => some 0) [((1 : ℤ), (10 : ℚ))]).map
        (fun q => ContentBased.ratingWeight q.1)).sum ∧
    ∀ i, ContentBased.buildUserProfile (fun _ => some 0) (fun _ _ => 1)
        [((1 : ℤ), (10 : ℚ))] i =
      ((ContentBased.matchedRows (fun _ => some 0) [((1 : ℤ), (10 : ℚ))]).map
        (fun q => ContentBased.ratingWeight q.1 * (fun _ _ => (1 : ℚ)) q.2 i)).sum /
      ((ContentBased.matchedRows (fun _ => some 0) [((1 : ℤ), (10 : ℚ))]).map
        (fun q => ContentBased.ratingWeight q.1)).sum :=
  C9_profile_weighted_mean (fun _ => some 0) (fun _ _ => 1)
    [((1 : ℤ), (10 : ℚ))]
    (by norm_num [ContentBased.profileFold, ContentBased.profileStep,
      ContentBased.ratingWeight])

lemma Similarity.alookup_mem_keys (l : List (String × String)) (k v : String)
    (h : Similarity.alookup l k = some v) : k ∈ Similarity.keys l := by
  induction l with
  | nil => cases h
  | cons p rest ih =>
      unfold Similarity.alookup at h
      by_cases hk : p.1 = k
      · subst hk
        exact List.mem_map.mpr ⟨p, List.mem_cons_self _ _, rfl⟩
      · rw [if_neg hk] at h
        exact List.mem_cons_of_mem _ (ih h)

lemma Similarity.directorSimilarity_type (t c : Similarity.MovieDict)
    (r : Similarity.SimilarityReason)
    (h : Similarity.directorSimilarity t c = some r) : r.type = "director" := by
  rw [Similarity.directorSimilarity] at h
  dsimp only at h
  repeat' split at h
  all_goals first
    | (injection h with h; subst h; rfl)
    | injection h

lemma Similarity.actorSimilarity_type (t c : Similarity.MovieDict)
    (r : Similarity.SimilarityReason)
    (h : Similarity.actorSimilarity t c = some r) : r.type = "actors" := by
  rw [Similarity.actorSimilarity] at h
  dsimp only at h
  repeat' split at h
  all_goals first
    | (injection h with h; subst h; rfl)
    | injection h

lemma Similarity.genreSimilarity_type (t c : Similarity.MovieDict)
    (r : Similarity.SimilarityReason)
    (h : Similarity.genreSimilarity t c = some r) : r.type = "genres" := by
  rw [Similarity.genreSimilarity] at h
  dsimp only at h
  repeat' split at h
  all_goals first
    | (injection h with h; subst h; rfl)
    | injection h

lemma Similarity.yearSimilarity_type (t c : Similarity.MovieDict)
    (r : Similarity.SimilarityReason)
    (h : Similarity.yearSimilarity t c = some r) : r.type = "year" := by
  rw [Similarity.yearSimilarity] at h
  repeat' first
    | split at h
    | dsimp only at h
  all_goals first
    | (injection h with h; subst h; rfl)
    | injection h

lemma Similarity.directorSimilarity_some_of_shared (t c : Similarity.MovieDict)
    (i name : String) (hi : i ∈ Similarity.cleanIds t.director_ids)
    (hlk : Similarity.alookup c.directors_with_ids i = some name)
    (hname : Py.strip name ≠ "") :
    ∃ r, Similarity.directorSimilarity t c = some r := by
  have hkeys : i ∈ Similarity.keys c.directors_with_ids :=
    Similarity.alookup_mem_keys _ _ _ hlk
  have hmem0 : i ∈ List.filter
      (fun j => (Similarity.keys c.directors_with_ids).contains j)
      (Similarity.cleanIds t.director_ids) :=
    List.mem_filter.mpr ⟨hi, by simpa using hkeys⟩
  have hnm : Py.strip name ∈ List.filterMap
      (fun j =>
        match Similarity.alookup c.directors_with_ids j with
        | some nm => if Py.strip nm ≠ "" then some (Py.strip nm) else none
        | none => none)
      (List.filter (fun j => (Similarity.keys c.directors_with_ids).contains j)
        (Similarity.cleanIds t.director_ids)) := by
    refine List.mem_filterMap.mpr ⟨i, hmem0, ?_⟩
    rw [hlk]
    simp [hname]
  cases hD : Similarity.directorSimilarity t c with
  | some r => exact ⟨r, rfl⟩
  | none =>
      exfalso
      rw [Similarity.directorSimilarity] at hD
      dsimp only at hD
      repeat' split at hD
      all_goals
        simp_all [List.isEmpty_iff, List.isEmpty_eq_false_iff_exists_mem]
      · rename_i hguard
        rcases hguard with ⟨h1, _⟩ | h2
        · rw [h1] at hi
          exact List.not_mem_nil i hi
        · rw [h2] at hkeys
          simp [Similarity.keys] at hkeys
      · rename_i hall
        have hspec := hall i hi hkeys
        rw [hlk] at hspec
        simp [hname] at hspec

lemma Similarity.getBest_eq_director (t c : Similarity.MovieDict)
    (r : Similarity.SimilarityReason)
    (h : Similarity.directorSimilarity t c = some r) :
    Similarity.getBestSimilarityReason t c = r := by
  rw [Similarity.getBestSimilarityReason, h]
  rfl

/-- C6 (amended): `get_best_similarity_reason` returns the first calculator
result in priority order (director, actors, genres, year, rating) and never
the `default` fallback, because the rating calculator always returns a
result; and whenever the pair shares a director id whose name in the
candidate's id→name map is non-blank, the returned reason has type
`director` (in particular never `genres`); a shared director whose recorded
name is blank does not count. -/
theorem C6_similarity_reason_priority (t c : Similarity.MovieDict) :
    ((Similarity.getBestSimilarityReason t c).type ≠ "default") ∧
    (∀ r, Similarity.directorSimilarity t c = some r →
      Similarity.getBestSimilarityReason t c = r) ∧
    (Similarity.directorSimilarity t c = none →
      ∀ r, Similarity.actorSimilarity t c = some r →
        Similarity.getBestSimilarityReason t c = r) ∧
    (Similarity.directorSimilarity t c = none →
      Similarity.actorSimilarity t c = none →
      ∀ r, Similarity.genreSimilarity t c = some r →
        Similarity.getBestSimilarityReason t c = r) ∧
    (Similarity.directorSimilarity t c = none →
      Similarity.actorSimilarity t c = none →
      Similarity.genreSimilarity t c = none →
      ∀ r, Similarity.yearSimilarity t c = some r →
        Similarity.getBestSimilarityReason t c = r) ∧
    (Similarity.directorSimilarity t c = none →
      Similarity.actorSimilarity t c = none →
      Similarity.genreSimilarity t c = none →
      Similarity.yearSimilarity t c = none →
      Similarity.getBestSimilarityReason t c =
        Similarity.ratingSimilarity t c) ∧
    (∀ i name, i ∈ Similarity.cleanIds t.director_ids →
      Similarity.alookup c.directors_with_ids i = some name →
      Py.strip name ≠ "" →
      (Similarity.getBestSimilarityReason t c).type = "director") := by
  refine ⟨?_, ?_, ?_, ?_, ?_, ?_, ?_⟩
  · cases h1 : Similarity.directorSimilarity t c with
    | some r =>
        rw [Similarity.getBest_eq_director t c r h1,
          Similarity.directorSimilarity_type t c r h1]
        decide
    | none =>
        cases h2 : Similarity.actorSimilarity t c with
        | some r =>
            rw [show Similarity.getBestSimilarityReason t c = r by
              rw [Similarity.getBestSimilarityReason, h1, h2]; rfl,
              Similarity.actorSimilarity_type t c r h2]
            decide
        | none =>
            cases h3 : Similarity.genreSimilarity t c with
            | some r =>
                rw [show Similarity.getBestSimilarityReason t c = r by
                  rw [Similarity.getBestSimilarityReason, h1, h2, h3]; rfl,
                  Similarity.genreSimilarity_type t c r h3]
                decide
            | none =>
                cases h4 : Similarity.yearSimilarity t c with
                | some r =>
                    rw [show Similarity.getBestSimilarityReason t c = r by
                      rw [Similarity.getBestSimilarityReason, h1, h2, h3, h4];
                        rfl,
                      Similarity.yearSimilarity_type t c r h4]
                    decide
                | none =>
                    rw [show Similarity.getBestSimilarityReason t c =
                        Similarity.ratingSimilarity t c by
                      rw [Similarity.getBestSimilarityReason, h1, h2, h3, h4];
                        rfl]
                    rw [show (Similarity.ratingSimilarity t c).type =
                      "rating" from rfl]
                    decide
  · exact Similarity.getBest_eq_director t c
  · intro h1 r h2
    rw [Similarity.getBestSimilarityReason, h1, h2]
    rfl
  · intro h1 h2 r h3
    rw [Similarity.getBestSimilarityReason, h1, h2, h3]
    rfl
  · intro h1 h2 h3 r h4
    rw [Similarity.getBestSimilarityReason, h1, h2, h3, h4]
    rfl
  · intro h1 h2 h3 h4
    rw [Similarity.getBestSimilarityReason, h1, h2, h3, h4]
    rfl
  · intro i name hi hlk hname
    obtain ⟨r, hr⟩ :=
      Similarity.directorSimilarity_some_of_shared t c i name hi hlk hname
    rw [Similarity.getBest_eq_director t c r hr]
    exact Similarity.directorSimilarity_type t c r hr

/-- Witness for C6: a pair sharing director id `7` named `Nolan` (non-blank);
the chosen reason has type `director`. -/
theorem C6_similarity_reason_priority_witness :
    (Similarity.getBestSimilarityReason
      { director_ids := ["7"], genres := ["Action"] }
      { directors_with_ids := [("7", "Nolan")],
        genres := ["Action"] }).type = "director" :=
  (C6_similarity_reason_priority
    { director_ids := ["7"], genres := ["Action"] }
    { directors_with_ids := [("7", "Nolan")], genres := ["Action"] }).2.2.2.2.2.2
    "7" "Nolan" (by decide) (by decide) (by decide)

/-- C6 counterexample: target and candidate share director id `1` and genre
`Action`, but the shared director's recorded name is blank, so the director
calculator yields no result and `get_best_similarity_reason` returns a
`genres` reason for a pair that does share a director. -/
theorem C6_counterexample_blank_director_name :
    (Similarity.getBestSimilarityReason
      { director_ids := ["1"], genres := ["Action"] }
      { directors_with_ids := [("1", "")], genres := ["Action"] }).type =
        "genres" ∧
    "1" ∈ Similarity.cleanIds
      (Similarity.MovieDict.director_ids
        { director_ids := ["1"], genres := ["Action"] }) ∧
    "1" ∈ Similarity.keys
      (Similarity.MovieDict.directors_with_ids
        { directors_with_ids := [("1", "")], genres := ["Action"] }) ∧
    "Action" ∈ Similarity.MovieDict.genres
      ({ director_ids := ["1"], genres := ["Action"] } :
        Similarity.MovieDict) ∧
    "Action" ∈ Similarity.MovieDict.genres
      ({ directors_with_ids := [("1", "")], genres := ["Action"] } :
        Similarity.MovieDict) := by
  refine ⟨?_, by decide, by decide, by decide, by decide⟩
  rfl

/-- C7: the LIKE parameter built by `get_knowledge_recommendations_for_user`
for a preferred genre is not `'%' + genre_name + '%'`: `get_user_top_genres`
returns `(name, score)` tuples and the whole tuple is interpolated, so for
the genre `Action` with score repr `9.0` the parameter is
`%('Action', 9.0)%`, which fails to match a genres string that contains
`Action`, while the intended pattern matches it. -/
theorem C7_genre_like_pattern_tuple_bug :
    Knowledge.buildGenreLikePatterns [("Action", "9.0")] ≠
      [Knowledge.intendedPattern "Action"] ∧
    Knowledge.sqlLike
      ((Knowledge.buildGenreLikePatterns [("Action", "9.0")]).headD "")
      "Action,Drama" = false ∧
    Knowledge.sqlLike (Knowledge.intendedPattern "Action") "Action,Drama" =
      true ∧
    "Action".data <:+: "Action,Drama".data := by
  refine ⟨by decide, ?_, by decide, by decide⟩
  decide

lemma Hybrid.le_bumpCounts (ks : List String) (cnt : String → ℕ) (k : String) :
    cnt k ≤ Hybrid.bumpCounts cnt ks k := by
  induction ks generalizing cnt with
  | nil => exact le_refl _
  | cons a ks ih =>
      unfold Hybrid.bumpCounts at ih ⊢
      simp only [List.foldl_cons]
      refine le_trans ?_ (ih _)
      by_cases hk : k = a
      · subst hk
        simp
      · simp [hk]

lemma Hybrid.bumpCounts_mem (ks : List String) (cnt : String → ℕ) (k : String)
    (h : k ∈ ks) : cnt k + 1 ≤ Hybrid.bumpCounts cnt ks k := by
  induction ks generalizing cnt with
  | nil => cases h
  | cons a ks ih =>
      unfold Hybrid.bumpCounts at ih ⊢
      simp only [List.foldl_cons]
      rcases List.mem_cons.mp h with rfl | hmem
      · refine le_trans ?_ (Hybrid.le_bumpCounts ks _ k)
        simp
      · refine le_trans ?_ (ih _ hmem)
        by_cases hk : k = a
        · subst hk
          simp
        · simp [hk]

lemma Hybrid.entryCount_append_single (details : ℤ → Hybrid.MovieInfo)
    (keyFn : Hybrid.MovieInfo → List String) (k : String)
    (acc : List (ℤ × ℚ)) (x : ℤ × ℚ) :
    Hybrid.entryCount details keyFn k (acc ++ [x]) =
      Hybrid.entryCount details keyFn k acc +
        (if k ∈ keyFn (details x.1) then 1 else 0) := by
  unfold Hybrid.entryCount
  rw [List.filter_append, List.length_append]
  by_cases hk : k ∈ keyFn (details x.1) <;> simp [hk]

lemma Hybrid.divAccept_bounds (details : ℤ → Hybrid.MovieInfo)
    (dc ac gc : String → ℕ) (mid : ℤ)
    (h : Hybrid.divAccept details dc ac gc mid = true) :
    (∀ k ∈ Hybrid.dirKeys (details mid), dc k ≤ 1) ∧
    (∀ k ∈ Hybrid.actorKeys (details mid), ac k ≤ 2) ∧
    (∀ k ∈ Hybrid.genreKeys (details mid), gc k ≤ 3) := by
  unfold Hybrid.divAccept Hybrid.divExceeded at h
  simp only [Bool.and_eq_true, Bool.not_eq_true', List.any_eq_false,
    decide_eq_false_iff_not, decide_eq_true_eq, not_le] at h
  obtain ⟨⟨hd, ha⟩, hg⟩ := h
  exact ⟨fun k hk => Nat.lt_succ_iff.mp (hd k hk),
    fun k hk => Nat.lt_succ_iff.mp (ha k hk),
    fun k hk => Nat.lt_succ_iff.mp (hg k hk)⟩

lemma Hybrid.divWalk_spec (details : ℤ → Hybrid.MovieInfo) (n : ℕ)
    (rest : List (ℤ × ℚ)) :
    ∀ (dc ac gc : String → ℕ) (acc : List (ℤ × ℚ)),
    (∀ k, Hybrid.entryCount details Hybrid.dirKeys k acc ≤ dc k ∧
      Hybrid.entryCount details Hybrid.dirKeys k acc ≤ 2) →
    (∀ k, Hybrid.entryCount details Hybrid.actorKeys k acc ≤ ac k ∧
      Hybrid.entryCount details Hybrid.actorKeys k acc ≤ 3) →
    (∀ k, Hybrid.entryCount details Hybrid.genreKeys k acc ≤ gc k ∧
      Hybrid.entryCount details Hybrid.genreKeys k acc ≤ 4) →
    acc.length ≤ n →
    (∀ k, Hybrid.entryCount details Hybrid.dirKeys k
      (Hybrid.divWalk details n rest dc ac gc acc) ≤ 2) ∧
    (∀ k, Hybrid.entryCount details Hybrid.actorKeys k
      (Hybrid.divWalk details n rest dc ac gc acc) ≤ 3) ∧
    (∀ k, Hybrid.entryCount details Hybrid.genreKeys k
      (Hybrid.divWalk details n rest dc ac gc acc) ≤ 4) ∧
    (Hybrid.divWalk details n rest dc ac gc acc).length ≤ n ∧
    ∃ t, Hybrid.divWalk details n rest dc ac gc acc = acc ++ t ∧
      t.Sublist rest := by
  induction rest with
  | nil =>
      intro dc ac gc acc hd ha hg hlen
      refine ⟨fun k => (hd k).2, fun k => (ha k).2, fun k => (hg k).2, ?_, ?_⟩
      · simpa [Hybrid.divWalk] using hlen
      · exact ⟨[], by simp [Hybrid.divWalk], List.nil_sublist _⟩
  | cons p rest ih =>
      intro dc ac gc acc hd ha hg hlen
      obtain ⟨mid, s⟩ := p
      by_cases hstop : n ≤ acc.length
      · rw [show Hybrid.divWalk details n ((mid, s) :: rest) dc ac gc acc =
            acc by rw [Hybrid.divWalk]; rw [if_pos hstop]]
        exact ⟨fun k => (hd k).2, fun k => (ha k).2, fun k => (hg k).2, hlen,
          ⟨[], by simp, List.nil_sublist _⟩⟩
      · by_cases hacc : Hybrid.divAccept details dc ac gc mid = true
        · rw [show Hybrid.divWalk details n ((mid, s) :: rest) dc ac gc acc =
              Hybrid.divWalk details n rest
                (Hybrid.bumpCounts dc (Hybrid.dirKeys (details mid)))
                (Hybrid.bumpCounts ac (Hybrid.actorKeys (details mid)))
                (Hybrid.bumpCounts gc (Hybrid.genreKeys (details mid)))
                (acc ++ [(mid, s)]) by
            rw [Hybrid.divWalk]; rw [if_neg hstop, if_pos hacc]]
          obtain ⟨hd2, ha2, hg2⟩ := Hybrid.divAccept_bounds details dc ac gc mid hacc
          have step : ∀ (keyFn : Hybrid.MovieInfo → List String)
              (cnt : String → ℕ) (bound : ℕ),
              (∀ k, Hybrid.entryCount details keyFn k acc ≤ cnt k ∧
                Hybrid.entryCount details keyFn k acc ≤ bound + 1) →
              (∀ k ∈ keyFn (details mid), cnt k ≤ bound) →
              (∀ k, Hybrid.entryCount details keyFn k (acc ++ [(mid, s)]) ≤
                  Hybrid.bumpCounts cnt (keyFn (details mid)) k ∧
                Hybrid.entryCount details keyFn k (acc ++ [(mid, s)]) ≤
                  bound + 1) := by
            intro keyFn cnt bound hinv hb k
            rw [Hybrid.entryCount_append_single]
            by_cases hk : k ∈ keyFn (details mid)
            · rw [if_pos hk]
              have h1 := (hinv k).1
              have h2 := hb k hk
              constructor
              · exact le_trans (by omega) (Hybrid.bumpCounts_mem _ _ _ hk)
              · omega
            · rw [if_neg hk]
              constructor
              · exact le_trans (by simpa using (hinv k).1)
                  (Hybrid.le_bumpCounts _ _ _)
              · simpa using (hinv k).2
          have hlen2 : (acc ++ [(mid, s)]).length ≤ n := by
            rw [List.length_append]
            simp only [List.length_singleton]
            omega
          obtain ⟨c1, c2, c3, c4, t', ht', hsub⟩ :=
            ih (Hybrid.bumpCounts dc (Hybrid.dirKeys (details mid)))
              (Hybrid.bumpCounts ac (Hybrid.actorKeys (details mid)))
              (Hybrid.bumpCounts gc (Hybrid.genreKeys (details mid)))
              (acc ++ [(mid, s)])
              (step Hybrid.dirKeys dc 1 hd hd2)
              (step Hybrid.actorKeys ac 2 ha ha2)
              (step Hybrid.genreKeys gc 3 hg hg2)
              hlen2
          refine ⟨c1, c2, c3, c4, (mid, s) :: t', ?_, List.Sublist.cons₂ _ hsub⟩
          rw [ht', List.append_assoc]
          rfl
        · rw [show Hybrid.divWalk details n ((mid, s) :: rest) dc ac gc acc =
              Hybrid.divWalk details n rest dc ac gc acc by
            rw [Hybrid.divWalk]; rw [if_neg hstop, if_neg hacc]]
          obtain ⟨c1, c2, c3, c4, t', ht', hsub⟩ := ih dc ac gc acc hd ha hg hlen
          exact ⟨c1, c2, c3, c4, t', ht', List.Sublist.cons _ hsub⟩

/-- C2: a diversity-optimized list never has a director in more than 2
entries' director lists, an actor in more than 3, or a genre in more than 4
(counted with the same truthiness/stripping as the walk); the walk stops at
`n` accepted entries; the output is a subsequence of the score-sorted
candidates (no backfill, nothing outside the candidate pool); and a
candidate is accepted exactly when none of its directors already has 2
selections, none of its actors 3, and none of its genres 4. -/
theorem C2_diversity_optimizer_bounds (details : ℤ → Hybrid.MovieInfo)
    (scores : List (ℤ × ℚ)) (n : ℕ) :
    (∀ k, Hybrid.entryCount details Hybrid.dirKeys k
      (Hybrid.applyDiversityOptimization details scores n) ≤ 2) ∧
    (∀ k, Hybrid.entryCount details Hybrid.actorKeys k
      (Hybrid.applyDiversityOptimization details scores n) ≤ 3) ∧
    (∀ k, Hybrid.entryCount details Hybrid.genreKeys k
      (Hybrid.applyDiversityOptimization details scores n) ≤ 4) ∧
    (Hybrid.applyDiversityOptimization details scores n).length ≤ n ∧
    (Hybrid.applyDiversityOptimization details scores n).Sublist
      (Hybrid.sortCandidates scores) ∧
    (∀ dc ac gc mid, Hybrid.divAccept details dc ac gc mid = true ↔
      ((∀ k ∈ Hybrid.dirKeys (details mid), dc k < 2) ∧
       (∀ k ∈ Hybrid.actorKeys (details mid), ac k < 3) ∧
       (∀ k ∈ Hybrid.genreKeys (details mid), gc k < 4))) := by
  have hzero : ∀ (keyFn : Hybrid.MovieInfo → List String) (b : ℕ) (k : String),
      Hybrid.entryCount details keyFn k ([] : List (ℤ × ℚ)) ≤ b := by
    intro keyFn b k
    simp [Hybrid.entryCount]
  obtain ⟨c1, c2, c3, c4, t, ht, hsub⟩ :=
    Hybrid.divWalk_spec details n (Hybrid.sortCandidates scores)
      (fun _ => 0) (fun _ => 0) (fun _ => 0) []
      (fun k => ⟨hzero _ _ _, hzero _ _ _⟩)
      (fun k => ⟨hzero _ _ _, hzero _ _ _⟩)
      (fun k => ⟨hzero _ _ _, hzero _ _ _⟩)
      (by simp)
  refine ⟨c1, c2, c3, c4, ?_, ?_⟩
  · unfold Hybrid.applyDiversityOptimization
    rw [ht]
    simpa using hsub
  · intro dc ac gc mid
    unfold Hybrid.divAccept Hybrid.divExceeded
    simp only [Bool.and_eq_true, Bool.not_eq_true', List.any_eq_false,
      decide_eq_false_iff_not, decide_eq_true_eq, not_le]
    tauto

lemma Hybrid.scoreLookup_addScore (m : List (ℤ × ℚ)) (k : ℤ) (v : ℚ)
    (j : ℤ) :
    Hybrid.scoreLookup (Hybrid.addScore m k v) j =
      Hybrid.scoreLookup m j + (if k = j then v else 0) := by
  induction m with
  | nil =>
      by_cases hj : k = j <;>
        simp [Hybrid.addScore, Hybrid.scoreLookup, hj]
  | cons p rest ih =>
      obtain ⟨a, b⟩ := p
      by_cases hak : a = k
      · subst hak
        rw [show Hybrid.addScore ((a, b) :: rest) a v =
          (a, b + v) :: rest from by rw [Hybrid.addScore, if_pos rfl]]
        by_cases haj : a = j <;>
          simp [Hybrid.scoreLookup, haj]
      · rw [show Hybrid.addScore ((a, b) :: rest) k v =
          (a, b) :: Hybrid.addScore rest k v from by
            rw [Hybrid.addScore, if_neg hak]]
        by_cases haj : a = j
        · subst haj
          have hkj : ¬k = a := fun hh => hak hh.symm
          simp [Hybrid.scoreLookup, hkj]
        · simp [Hybrid.scoreLookup, haj, ih]

lemma Hybrid.engineScore_not_mem (recs : List (ℤ × ℚ)) (k : ℤ)
    (h : k ∉ recs.map Prod.fst) : Hybrid.engineScore recs k = 0 := by
  unfold Hybrid.engineScore
  rw [List.find?_eq_none.mpr]
  intro p hp
  simp only [decide_eq_true_eq]
  intro hpk
  exact h (List.mem_map.mpr ⟨p, hp, hpk⟩)

lemma Hybrid.scoreLookup_mergeEngine (recs : List (ℤ × ℚ))
    (h : (recs.map Prod.fst).Nodup) (acc : List (ℤ × ℚ)) (w : ℚ) (k : ℤ) :
    Hybrid.scoreLookup (Hybrid.mergeEngine acc recs w) k =
      Hybrid.scoreLookup acc k + Hybrid.engineScore recs k * w := by
  induction recs generalizing acc with
  | nil => simp [Hybrid.mergeEngine, Hybrid.engineScore]
  | cons p rest ih =>
      rw [List.map_cons] at h
      obtain ⟨hp, hnd⟩ := List.nodup_cons.mp h
      have hrec : Hybrid.mergeEngine acc (p :: rest) w =
          Hybrid.mergeEngine (Hybrid.addScore acc p.1 (p.2 * w)) rest w := by
        simp [Hybrid.mergeEngine]
      rw [hrec, ih hnd, Hybrid.scoreLookup_addScore]
      by_cases hpk : p.1 = k
      · have hk0 : Hybrid.engineScore rest k = 0 := by
          apply Hybrid.engineScore_not_mem
          rw [← hpk]
          exact hp
        have he : Hybrid.engineScore (p :: rest) k = p.2 := by
          unfold Hybrid.engineScore
          simp [List.find?, hpk]
        rw [he, hk0, if_pos hpk]
        ring
      · have he : Hybrid.engineScore (p :: rest) k =
            Hybrid.engineScore rest k := by
          unfold Hybrid.engineScore
          simp [List.find?, hpk]
        rw [he, if_neg hpk]
        ring

lemma Hybrid.scoreLookup_filter_not_mem (m : List (ℤ × ℚ)) (rated : List ℤ)
    (k : ℤ) (h : k ∉ rated) :
    Hybrid.scoreLookup (m.filter (fun p => decide (p.1 ∉ rated))) k =
      Hybrid.scoreLookup m k := by
  induction m with
  | nil => simp
  | cons p rest ih =>
      obtain ⟨a, b⟩ := p
      rw [List.filter_cons]
      by_cases har : a ∈ rated
      · rw [if_neg (by simp [har]), ih]
        have hak : ¬a = k := fun hh => h (hh ▸ har)
        rw [show Hybrid.scoreLookup ((a, b) :: rest) k =
          if a = k then b else Hybrid.scoreLookup rest k from rfl,
          if_neg hak]
      · rw [if_pos (by simp [har])]
        by_cases hak : a = k
        · rw [show Hybrid.scoreLookup
            ((a, b) :: List.filter (fun p => decide (p.1 ∉ rated)) rest) k =
            if a = k then b else Hybrid.scoreLookup
              (List.filter (fun p => decide (p.1 ∉ rated)) rest) k from rfl,
            if_pos hak,
            show Hybrid.scoreLookup ((a, b) :: rest) k =
              if a = k then b else Hybrid.scoreLookup rest k from rfl,
            if_pos hak]
        · rw [show Hybrid.scoreLookup
            ((a, b) :: List.filter (fun p => decide (p.1 ∉ rated)) rest) k =
            if a = k then b else Hybrid.scoreLookup
              (List.filter (fun p => decide (p.1 ∉ rated)) rest) k from rfl,
            if_neg hak, ih,
            show Hybrid.scoreLookup ((a, b) :: rest) k =
              if a = k then b else Hybrid.scoreLookup rest k from rfl,
            if_neg hak]

/-- C5: the raw fused score of every candidate not rated by the user equals
`0.4·userCF + 0.3·itemCF + 0.3·content`, where an engine that did not
propose the movie contributes `0` (an additive sum, not an average over the
proposing engines), and every movie the user has rated is removed from the
fused map before the diversity optimizer runs on it. -/
theorem C5_hybrid_fusion_weights (userCf itemCf content : List (ℤ × ℚ))
    (rated : List ℤ)
    (h1 : (userCf.map Prod.fst).Nodup) (h2 : (itemCf.map Prod.fst).Nodup)
    (h3 : (content.map Prod.fst).Nodup) :
    (∀ k, Hybrid.scoreLookup (Hybrid.fuseScores userCf itemCf content) k =
      Hybrid.engineScore userCf k * (2/5) +
      Hybrid.engineScore itemCf k * (3/10) +
      Hybrid.engineScore content k * (3/10)) ∧
    (∀ k, k ∉ rated →
      Hybrid.scoreLookup
        (Hybrid.hybridMovieScores userCf itemCf content rated) k =
      Hybrid.engineScore userCf k * (2/5) +
      Hybrid.engineScore itemCf k * (3/10) +
      Hybrid.engineScore content k * (3/10)) ∧
    (∀ k ∈ rated,
      k ∉ (Hybrid.hybridMovieScores userCf itemCf content rated).map
        Prod.fst) ∧
    (∀ details n, Hybrid.getHybridRecommendations details userCf itemCf
        content rated n =
      Hybrid.applyDiversityOptimization details
        (Hybrid.hybridMovieScores userCf itemCf content rated) n) := by
  have hfuse : ∀ k,
      Hybrid.scoreLookup (Hybrid.fuseScores userCf itemCf content) k =
      Hybrid.engineScore userCf k * (2/5) +
      Hybrid.engineScore itemCf k * (3/10) +
      Hybrid.engineScore content k * (3/10) := by
    intro k
    unfold Hybrid.fuseScores
    rw [Hybrid.scoreLookup_mergeEngine content h3,
      Hybrid.scoreLookup_mergeEngine itemCf h2,
      Hybrid.scoreLookup_mergeEngine userCf h1]
    rw [show Hybrid.scoreLookup ([] : List (ℤ × ℚ)) k = 0 from rfl]
    ring
  refine ⟨hfuse, ?_, ?_, fun _ _ => rfl⟩
  · intro k hk
    unfold Hybrid.hybridMovieScores
    rw [Hybrid.scoreLookup_filter_not_mem _ _ _ hk]
    exact hfuse k
  · intro k hk hmem
    obtain ⟨p, hp, hpk⟩ := List.mem_map.mp hmem
    have := (List.mem_filter.mp hp).2
    simp only [decide_eq_true_eq] at this
    exact this (hpk ▸ hk)

/-- Witness for C5 at concrete engine outputs: movie 1 proposed by user-CF
(8) and item-CF (6), movie 2 by item-CF only (4), movie 3 (rated) by
content only (5). -/
theorem C5_hybrid_fusion_weights_witness :
    (∀ k, Hybrid.scoreLookup
        (Hybrid.fuseScores [((1 : ℤ), (8 : ℚ))] [(1, 6), (2, 4)] [(3, 5)]) k =
      Hybrid.engineScore [((1 : ℤ), (8 : ℚ))] k * (2/5) +
      Hybrid.engineScore [((1 : ℤ), (6 : ℚ)), (2, 4)] k * (3/10) +
      Hybrid.engineScore [((3 : ℤ), (5 : ℚ))] k * (3/10)) ∧
    (∀ k, k ∉ [(3 : ℤ)] →
      Hybrid.scoreLookup
        (Hybrid.hybridMovieScores [(1, 8)] [(1, 6), (2, 4)] [(3, 5)] [3]) k =
      Hybrid.engineScore [((1 : ℤ), (8 : ℚ))] k * (2/5) +
      Hybrid.engineScore [((1 : ℤ), (6 : ℚ)), (2, 4)] k * (3/10) +
      Hybrid.engineScore [((3 : ℤ), (5 : ℚ))] k * (3/10)) ∧
    (∀ k ∈ [(3 : ℤ)],
      k ∉ (Hybrid.hybridMovieScores [(1, 8)] [(1, 6), (2, 4)] [(3, 5)]
        [3]).map Prod.fst) ∧
    (∀ details n, Hybrid.getHybridRecommendations details [(1, 8)]
        [(1, 6), (2, 4)] [(3, 5)] [3] n =
      Hybrid.applyDiversityOptimization details
        (Hybrid.hybridMovieScores [(1, 8)] [(1, 6), (2, 4)] [(3, 5)] [3]) n) :=
  C5_hybrid_fusion_weights [(1, 8)] [(1, 6), (2, 4)] [(3, 5)] [3]
    (by decide) (by decide) (by decide)

lemma RecUser.fetchRandomMovieIds_not_excluded (order : List ℤ) (limit : ℕ)
    (excl : List ℤ) (extra : ℤ → Bool) (x : ℤ)
    (hx : x ∈ RecUser.fetchRandomMovieIds order limit excl extra) :
    x ∉ excl := by
  unfold RecUser.fetchRandomMovieIds at hx
  split at hx
  · cases hx
  · have := List.mem_filter.mp (List.mem_of_mem_take hx)
    simp only [Bool.and_eq_true, decide_eq_true_eq] at this
    exact this.2.1

lemma RecUser.filterRecommenderOutput_not_excluded (raw excl : List ℤ)
    (x : ℤ) (hx : x ∈ RecUser.filterRecommenderOutput raw excl) :
    x ∉ excl := by
  unfold RecUser.filterRecommenderOutput at hx
  split at hx
  · have := List.mem_filter.mp hx
    simpa using this.2
  · rename_i hcond
    rw [not_and_or] at hcond
    rcases hcond with hexcl | hraw
    · rw [not_not] at hexcl
      subst hexcl
      exact List.not_mem_nil x
    · rw [not_not] at hraw
      subst hraw
      cases hx

lemma RecUser.movieIdsBeforePadding_not_excluded (env : RecUser.RecEnv)
    (n : ℕ) (refresh : Bool) (excl : List ℤ)
    (hsafe : refresh = true ∨ env.cacheQueryFails = false) (x : ℤ)
    (hx : x ∈ RecUser.movieIdsBeforePadding env n refresh excl) :
    x ∉ excl := by
  unfold RecUser.movieIdsBeforePadding at hx
  cases refresh with
  | true =>
      rw [if_pos rfl] at hx
      split at hx
      · split at hx
        · cases hx
        · have := List.mem_filter.mp hx
          simpa using this.2
      · exact RecUser.filterRecommenderOutput_not_excluded _ _ _ hx
  | false =>
      rw [if_neg (by simp)] at hx
      have hcq : env.cacheQueryFails = false := by
        rcases hsafe with h | h
        · cases h
        · exact h
      rw [hcq] at hx
      simp only [Bool.false_eq_true, if_false] at hx
      split at hx
      · have := List.mem_filter.mp hx
        simpa using this.2
      · split at hx
        · have := List.mem_filter.mp hx
          simpa using this.2
        · exact RecUser.filterRecommenderOutput_not_excluded _ _ _ hx

/-- C1 (amended): the list returned by `get_recommendations_for_user` has
empty intersection with `exclude_ids` on the admin path, on every refresh
path, on the cached path, on the cache-miss generation path and its
popular-movie fallback, and on the random-movie padding — that is, on every
path except the fallback taken when the cache lookup itself raises (lines
1495-1502), which fetches random movies without the exclusion filter. -/
theorem C1_exclusion_honored (env : RecUser.RecEnv) (n : ℕ) (refresh : Bool)
    (excludeIds : List ℤ)
    (hsafe : env.isAdmin = true ∨ refresh = true ∨
      env.cacheQueryFails = false) :
    ∀ x ∈ RecUser.getRecommendationsForUser env n refresh excludeIds,
      x ∉ excludeIds := by
  intro x hx
  unfold RecUser.getRecommendationsForUser at hx
  split at hx
  · cases hx
  · split at hx
    · -- admin path
      split at hx
      · cases hx
      · exact RecUser.fetchRandomMovieIds_not_excluded _ _ _ _ _ hx
    · -- regular path
      rename_i houter hadmin
      have hsafe' : refresh = true ∨ env.cacheQueryFails = false := by
        rcases hsafe with h | h
        · exact absurd h (by simpa using hadmin)
        · exact h
      dsimp only at hx
      have hx' := List.mem_of_mem_take hx
      split at hx'
      · split at hx'
        · exact RecUser.movieIdsBeforePadding_not_excluded env n refresh
            excludeIds hsafe' x hx'
        · rcases List.mem_append.mp hx' with h | h
          · exact RecUser.movieIdsBeforePadding_not_excluded env n refresh
              excludeIds hsafe' x h
          · have hne := RecUser.fetchRandomMovieIds_not_excluded _ _ _ _ _ h
            intro hmem
            exact hne (List.mem_append.mpr (Or.inl (List.mem_append.mpr
              (Or.inr hmem))))
      · exact RecUser.movieIdsBeforePadding_not_excluded env n refresh
          excludeIds hsafe' x hx'

/-- Witness for C1 on the refresh path: the recommender proposed `[5, 1]`,
id `1` is excluded, the returned list contains `5` and `5` is not
excluded. -/
theorem C1_exclusion_honored_witness :
    (5 : ℤ) ∈ RecUser.getRecommendationsForUser
      ⟨false, false, false, [5, 1], false, false, 0, [], [], false, [5, 9],
        fun _ => true, false⟩ 1 true [1] ∧
    (5 : ℤ) ∉ ([1] : List ℤ) :=
  ⟨by decide, C1_exclusion_honored
    ⟨false, false, false, [5, 1], false, false, 0, [], [], false, [5, 9],
      fun _ => true, false⟩ 1 true [1] (by decide) 5 (by decide)⟩

/-- C1 counterexample: a non-admin, non-refresh call whose cache lookup
raises (lines 1495-1502): the fallback fetches random movies without the
exclusion filter, and with the movie table traversal starting at the
excluded id `1` the returned list is exactly `[1]`, intersecting
`exclude_ids = [1]`. -/
theorem C1_counterexample_cache_error_path :
    RecUser.getRecommendationsForUser
      ⟨false, false, false, [], false, true, 0, [], [], false, [1, 2],
        fun _ => true, false⟩ 1 false [1] = [1] ∧
    ¬ (∀ x ∈ RecUser.getRecommendationsForUser
      ⟨false, false, false, [], false, true, 0, [], [], false, [1, 2],
        fun _ => true, false⟩ 1 false [1], x ∉ ([1] : List ℤ)) := by
  constructor
  · rfl
  · intro h
    exact h 1 (by rw [show RecUser.getRecommendationsForUser
      ⟨false, false, false, [], false, true, 0, [], [], false, [1, 2],
        fun _ => true, false⟩ 1 false [1] = [1] from rfl]; exact
      List.mem_singleton.mpr rfl) (List.mem_singleton.mpr rfl)

lemma Similar.selectByTypes_subset (sh : String → List Similar.Cand → List Similar.Cand)
    (hsh : ∀ t l, ∀ x ∈ sh t l, x ∈ l) (resultMovies : List Similar.Cand)
    (ts : List String) (rem : ℕ) (x : Similar.Cand)
    (hx : x ∈ Similar.selectByTypes sh resultMovies ts rem) :
    x ∈ resultMovies := by
  induction ts generalizing rem with
  | nil => cases hx
  | cons t ts ih =>
      rw [Similar.selectByTypes] at hx
      dsimp only at hx
      split at hx
      · exact ih _ hx
      · have hgrp : ∀ y, y ∈ (sh t (resultMovies.filter
            (fun m => m.reasonType = t))).take
              (Similar.takeCountFor t (resultMovies.filter
                (fun m => m.reasonType = t)).length rem) →
            y ∈ resultMovies := by
          intro y hy
          have := hsh t _ _ (List.mem_of_mem_take hy)
          exact (List.mem_filter.mp this).1
        split at hx
        · exact hgrp x hx
        · rcases List.mem_append.mp hx with h | h
          · exact hgrp x h
          · exact ih _ h

lemma Similar.selectSimilarMovies_subset
    (sh : String → List Similar.Cand → List Similar.Cand)
    (shPad : List Similar.Cand → List Similar.Cand)
    (hsh : ∀ t l, ∀ x ∈ sh t l, x ∈ l)
    (hshPad : ∀ l, ∀ x ∈ shPad l, x ∈ l)
    (resultMovies : List Similar.Cand) (n : ℕ) (x : Similar.Cand)
    (hx : x ∈ Similar.selectSimilarMovies sh shPad resultMovies n) :
    x ∈ resultMovies := by
  unfold Similar.selectSimilarMovies at hx
  dsimp only at hx
  have hx' := List.mem_of_mem_take hx
  split at hx'
  · rcases List.mem_append.mp hx' with h | h
    · exact Similar.selectByTypes_subset sh hsh _ _ _ _ h
    · have := hshPad _ _ (List.mem_of_mem_take h)
      exact (List.mem_filter.mp this).1
  · exact Similar.selectByTypes_subset sh hsh _ _ _ _ hx'

/-- C10: the list returned by `get_similar_movies(movie_id, n, exclude_ids)`
never contains the target movie: the target id is appended to the exclusion
set and the candidate query's `NOT IN` filter removes it on every successful
path (error paths return the empty list). -/
theorem C10_similar_movies_excludes_target (db : List ℤ)
    (whereCond : ℤ → Bool) (reasonOf : ℤ → String)
    (sh : String → List Similar.Cand → List Similar.Cand)
    (shPad : List Similar.Cand → List Similar.Cand)
    (hsh : ∀ t l, ∀ x ∈ sh t l, x ∈ l)
    (hshPad : ∀ l, ∀ x ∈ shPad l, x ∈ l)
    (fails : Bool) (movieId : ℤ) (n : ℕ) (excludeIds : List ℤ) :
    ∀ c ∈ Similar.getSimilarMovies db whereCond reasonOf sh shPad fails
      movieId n excludeIds, c.id ≠ movieId := by
  intro c hc
  unfold Similar.getSimilarMovies at hc
  split at hc
  · cases hc
  · dsimp only at hc
    have hres := Similar.selectSimilarMovies_subset sh shPad hsh hshPad _ _ _ hc
    obtain ⟨i, hi, rfl⟩ := List.mem_map.mp hres
    have hfil := List.mem_filter.mp (List.mem_of_mem_take hi)
    simp only [Bool.and_eq_true, decide_eq_true_eq] at hfil
    intro hid
    have hid' : i = movieId := hid
    exact hfil.2.1 (by
      rw [hid']
      exact List.mem_append.mpr (Or.inr (List.mem_singleton.mpr rfl)))

/-- Witness for C10: database ids `[42, 99, 7]`, target `42`, identity
shuffles; the returned list contains movie 99 and its id differs from the
target's. -/
theorem C10_similar_movies_excludes_target_witness :
    (⟨99, "director"⟩ : Similar.Cand) ∈ Similar.getSimilarMovies [42, 99, 7]
      (fun _ => true) (fun _ => "director") (fun _ l => l) (fun l => l)
      false 42 3 [] ∧
    (⟨99, "director"⟩ : Similar.Cand).id ≠ 42 :=
  ⟨by decide, C10_similar_movies_excludes_target [42, 99, 7] (fun _ => true)
    (fun _ => "director") (fun _ l => l) (fun l => l)
    (fun _ _ _ hx => hx) (fun _ _ hx => hx) false 42 3 []
    ⟨99, "director"⟩ (by decide)⟩
